import Mathlib

/-!
Verification of the HR-agent HTTP façade: a shallow embedding of
`tools.py`, `hr_agent_claude_sdk.py` and `api.py`, together with theorems
settling the stated properties of the system.
-/

namespace HRAgent

/-! ## Modelling Python string/`dict` primitives used by the source -/

/-- Python `a or b` on an optional string: the right operand is taken when the
left is `None` or the empty string (both falsy).  Models
`session_id or str(uuid.uuid4())`. -/
def pyOrStr (a : Option String) (b : String) : String :=
  match a with
  | none => b
  | some s => if s = "" then b else s

/-- Python `d.get(k)` / `d[k]` lookup on an insertion-ordered dict, modelled as
an association list with unique keys (first match wins). -/
def dictGet {α : Type} (d : List (String × α)) (k : String) : Option α :=
  match d with
  | [] => none
  | (k', v) :: rest => if k' = k then some v else dictGet rest k

/-- Python `d[k] = v`: update the existing entry in place, else append a new
entry at the end (dict insertion order). -/
def dictSet {α : Type} (d : List (String × α)) (k : String) (v : α) :
    List (String × α) :=
  match d with
  | [] => [(k, v)]
  | (k', v') :: rest => if k' = k then (k', v) :: rest else (k', v') :: dictSet rest k v

/-- Python `del d[k]`: remove the entry for `k` (keys are unique in a dict). -/
def dictDel {α : Type} (d : List (String × α)) (k : String) : List (String × α) :=
  match d with
  | [] => []
  | (k', v') :: rest => if k' = k then rest else (k', v') :: dictDel rest k

/-- Python `d[k].append(m)` where `d` maps keys to lists: mutate the list held
under `k` (no effect when `k` is absent, which the source never does). -/
def dictAppend {α : Type} (d : List (String × List α)) (k : String) (m : α) :
    List (String × List α) :=
  match d with
  | [] => []
  | (k', v) :: rest =>
    if k' = k then (k', v ++ [m]) :: rest else (k', v) :: dictAppend rest k m

/-! ## `validate_datetime` (tools.py lines 17-23)

`datetime.strptime(date_text, "%Y-%m-%d")` in CPython matches the regex
`\d\d\d\d` for `%Y`, `1[0-2]|0[1-9]|[1-9]` for `%m` and
`3[01]|[12]\d|0[1-9]|[1-9]` for `%d`, requires the whole string to be
consumed, and then the `datetime` constructor rejects year 0 and any day
beyond the length of the month (Gregorian leap rule). -/

/-- Value of a decimal digit string (the groups above are all digits). -/
def digitsToNat (cs : List Char) : Nat :=
  cs.foldl (fun a c => a * 10 + (c.toNat - 48)) 0

/-- Gregorian leap-year rule used by Python's `datetime`. -/
def isLeapYear (y : Nat) : Bool :=
  y % 4 == 0 && (y % 100 != 0 || y % 400 == 0)

/-- Number of days in a month, as enforced by the `datetime` constructor. -/
def daysInMonth (y m : Nat) : Nat :=
  if m = 2 then (if isLeapYear y then 29 else 28)
  else if m = 4 ∨ m = 6 ∨ m = 9 ∨ m = 11 then 30
  else 31

/-- Parse a string as `strptime(s, "%Y-%m-%d")` does: exactly four year
digits, a dash, a one- or two-digit month in 1..12, a dash, a one- or
two-digit day in 1..days-in-month, nothing left over, year at least 1. -/
def parseYMD (s : String) : Option (Nat × Nat × Nat) :=
  match s.toList with
  | y0 :: y1 :: y2 :: y3 :: '-' :: rest =>
    if y0.isDigit ∧ y1.isDigit ∧ y2.isDigit ∧ y3.isDigit then
      let y := digitsToNat [y0, y1, y2, y3]
      let mcs := rest.takeWhile (fun c => c ≠ '-')
      match rest.dropWhile (fun c => c ≠ '-') with
      | '-' :: dcs =>
        let m := digitsToNat mcs
        let d := digitsToNat dcs
        if mcs.all Char.isDigit ∧ dcs.all Char.isDigit ∧
            1 ≤ mcs.length ∧ mcs.length ≤ 2 ∧
            1 ≤ dcs.length ∧ dcs.length ≤ 2 ∧
            1 ≤ y ∧ 1 ≤ m ∧ m ≤ 12 ∧ 1 ≤ d ∧ d ≤ daysInMonth y m then
          some (y, m, d)
        else none
      | _ => none
    else none
  | _ => none

/-- `validate_datetime` from the source: true iff `strptime` succeeds. -/
def validate_datetime (date_text : String) : Bool :=
  (parseYMD date_text).isSome

/-! ## `json.dumps` on a list of strings (Python stdlib, default options) -/

/-- Lower-case hexadecimal digit. -/
def hexDigit (n : Nat) : Char :=
  if n < 10 then Char.ofNat (48 + n) else Char.ofNat (87 + n)

/-- Four-digit lower-case hexadecimal rendering, as in `\uXXXX` escapes. -/
def hex4 (n : Nat) : String :=
  String.mk [hexDigit (n / 4096 % 16), hexDigit (n / 256 % 16),
    hexDigit (n / 16 % 16), hexDigit (n % 16)]

/-- Escape of one character under `json.dumps` defaults (`ensure_ascii`):
printable ASCII other than quote and backslash is literal, common control
characters use short escapes, everything else becomes `\uXXXX` (with a
surrogate pair above the BMP). -/
def jsonEscapeChar (c : Char) : String :=
  if c = '"' then "\\\""
  else if c = '\\' then "\\\\"
  else if c = '\n' then "\\n"
  else if c = '\r' then "\\r"
  else if c = '\t' then "\\t"
  else if c.toNat = 8 then "\\b"
  else if c.toNat = 12 then "\\f"
  else if c.toNat < 32 ∨ 126 < c.toNat then
    if c.toNat < 65536 then "\\u" ++ hex4 c.toNat
    else
      let v := c.toNat - 65536
      "\\u" ++ hex4 (55296 + v / 1024) ++ "\\u" ++ hex4 (56320 + v % 1024)
  else String.singleton c

/-- A JSON string literal for `s`. -/
def jsonString (s : String) : String :=
  "\"" ++ String.join (s.toList.map jsonEscapeChar) ++ "\""

/-- `json.dumps` of a list of strings with default separators (`", "`). -/
def json_dumps (xs : List String) : String :=
  "[" ++ String.intercalate ", " (xs.map jsonString) ++ "]"

/-! ## The three HR tools (tools.py lines 28-94) -/

/-- One `{"type": ..., "text": ...}` entry of a tool result's `content`. -/
structure ContentItem where
  type : String
  text : String
deriving DecidableEq, Repr

/-- The dict a tool returns: a `content` list and an optional `is_error` flag
(absent means false). -/
structure ToolResult where
  content : List ContentItem
  is_error : Bool := false
deriving DecidableEq, Repr

/-- Arguments dict of the username-keyed tools; a missing key models
`args.get("username", "")` returning the default. -/
structure UsernameArgs where
  username : Option String
deriving DecidableEq, Repr

/-- Arguments dict of the timeoff tool. -/
structure TimeoffArgs where
  assignment_id : Option String
  start_date : Option String
  end_date : Option String
deriving DecidableEq, Repr

/-- `get_assignment_id_hr_usecase` from tools.py. -/
def get_assignment_id_hr_usecase (args : UsernameArgs) : ToolResult :=
  let username := args.username.getD ""
  let result :=
    if username = "nwaters" then "15778303"
    else if username = "johndoe" then "15338303"
    else "not found"
  { content := [{ type := "text", text := result }] }

/-- `get_timeoff_schedule_hr_usecase` from tools.py. -/
def get_timeoff_schedule_hr_usecase (args : TimeoffArgs) : ToolResult :=
  let assignment_id := args.assignment_id.getD ""
  let start_date := args.start_date.getD ""
  let end_date := args.end_date.getD ""
  if ¬ validate_datetime start_date then
    let msg := "Incorrect date format " ++ start_date ++ ", should be YYYY-MM-DD"
    { content := [{ type := "text", text := msg }], is_error := true }
  else if ¬ validate_datetime end_date then
    let msg := "Incorrect date format " ++ end_date ++ ", should be YYYY-MM-DD"
    { content := [{ type := "text", text := msg }], is_error := true }
  else
    let result :=
      if assignment_id = "15338303" then json_dumps ["20250411", "20250311", "20250101"]
      else if assignment_id = "15778303" then json_dumps ["20250105"]
      else json_dumps []
    { content := [{ type := "text", text := result }] }

/-- `get_direct_reports_hr_usecase` from tools.py (input ignored). -/
def get_direct_reports_hr_usecase (_args : UsernameArgs) : ToolResult :=
  { content := [{ type := "text", text := json_dumps ["nwaters", "johndoe"] }] }

/-! ## Typed runtime messages (the `claude_agent_sdk` collaborator boundary)

Only the fields the source reads are modelled: block texts, tool-use names,
tool-result payloads, and the terminal result's session id / error flag. -/

/-- A content block inside a streamed runtime message. -/
inductive ContentBlock where
  | textBlock (text : String)
  | toolUseBlock (id : String) (name : String)
  | toolResultBlock (tool_use_id : String) (content : Option String) (is_error : Option Bool)
deriving DecidableEq, Repr

/-- One streamed runtime message, as distinguished by the source's
`isinstance` checks. -/
inductive SdkMessage where
  | assistantMessage (content : List ContentBlock)
  | userMessage (content : List ContentBlock)
  | resultMessage (session_id : String) (is_error : Bool)
  | otherMessage
deriving DecidableEq, Repr

/-! ## The adapter: `get_claude_agent_response` (hr_agent_claude_sdk.py)

The runtime exchange (`create_hr_agent` / `client.query` /
`client.receive_response`) is the external collaborator; it is passed in as
an `Except`-valued message stream: either the list of streamed messages in
arrival order, or the exception it raises.  `str(uuid.uuid4())` is passed in
as the `freshUuid` argument. -/

/-- Accumulation of one block into the running response text
(`if isinstance(block, TextBlock): response_text += block.text`). -/
def blockText (acc : String) (b : ContentBlock) : String :=
  match b with
  | .textBlock t => acc ++ t
  | _ => acc

/-- The response-text accumulation loop of the source (lines 357-362): fold
over the streamed messages, appending the text of every `TextBlock` of every
`AssistantMessage`. -/
def response_text (msgs : List SdkMessage) : String :=
  msgs.foldl
    (fun acc msg =>
      match msg with
      | .assistantMessage blocks => blocks.foldl blockText acc
      | _ => acc)
    ""

/-- The dict returned by `get_claude_agent_response`. -/
structure AgentResult where
  session_id : String
  content : String
  is_new_session : Bool
deriving DecidableEq, Repr

/-- `get_claude_agent_response` on the untraced path (lines 184-185 and
352-368): `is_new_session = session_id is None`,
`actual_session_id = session_id or str(uuid.uuid4())`, response text
accumulated from the stream; any exchange failure propagates. -/
def get_claude_agent_response (message : String) (session_id : Option String)
    (freshUuid : String) (exchange : Except String (List SdkMessage)) :
    Except String AgentResult :=
  let is_new_session := session_id.isNone
  let actual_session_id := pyOrStr session_id freshUuid
  let _ := message
  match exchange with
  | .error e => .error e
  | .ok msgs =>
    .ok { session_id := actual_session_id, content := response_text msgs,
          is_new_session := is_new_session }

/-! ## The traced path (lines 206-350)

The Langfuse sink is a collaborator: each span-recording call either
succeeds or raises, as does `flush`.  The control flow of the source is
mirrored: spans before the exchange, spans per streamed message, final
spans and flush; the outer `except` block records an `error` span inside
`try/except: pass` (its outcome is discarded), then calls `flush`
unguarded, then re-raises. -/

/-- The span-recording sink: per-span outcome keyed by span name, plus the
outcome of `root_span.update` and of `flush`. -/
structure TraceSink where
  span : String → Except String Unit
  rootUpdate : Except String Unit
  flush : Except String Unit

/-- An exception escaping `get_claude_agent_response`, tagged by origin. -/
inductive PyError where
  | exchange (msg : String)
  | tracing (msg : String)
deriving DecidableEq, Repr

/-- Span-recording calls made while consuming one streamed message:
`tool-call-<name>` per tool-use block of an assistant message,
`tool-result` per tool-result block of a user message, and the
`claude-agent-processing` generation on the terminal result message. -/
def spanOpsFor (msg : SdkMessage) : List String :=
  match msg with
  | .assistantMessage blocks =>
    blocks.filterMap (fun b =>
      match b with
      | .toolUseBlock _ name => some ("tool-call-" ++ name)
      | _ => none)
  | .userMessage blocks =>
    blocks.filterMap (fun b =>
      match b with
      | .toolResultBlock _ _ _ => some "tool-result"
      | _ => none)
  | .resultMessage _ _ => ["claude-agent-processing"]
  | .otherMessage => []

/-- Record the named spans in order, stopping at the first failure. -/
def runSpans (sink : TraceSink) (names : List String) : Except String Unit :=
  match names with
  | [] => .ok ()
  | n :: rest =>
    match sink.span n with
    | .error e => .error e
    | .ok _ => runSpans sink rest

/-- The body of the `try` block on the traced path: root and user-message
spans, then the exchange, then the per-message spans, the
assistant-response span, the root-span update and the flush; yields the
accumulated response text. -/
def tracedBody (sink : TraceSink) (exchange : Except String (List SdkMessage)) :
    Except PyError String :=
  match runSpans sink ["hr-agent-query", "user-message"] with
  | .error e => .error (.tracing e)
  | .ok _ =>
    match exchange with
    | .error e => .error (.exchange e)
    | .ok msgs =>
      match runSpans sink ((msgs.map spanOpsFor).flatten ++ ["assistant-response"]) with
      | .error e => .error (.tracing e)
      | .ok _ =>
        match sink.rootUpdate with
        | .error e => .error (.tracing e)
        | .ok _ =>
          match sink.flush with
          | .error e => .error (.tracing e)
          | .ok _ => .ok (response_text msgs)

/-- `get_claude_agent_response` on the traced path.  On any exception from
the `try` body, the error span is recorded inside `try/except: pass` (its
outcome `errorSpan` is discarded either way), then `flush` runs unguarded —
a flush failure replaces the pending exception — and the exception is
re-raised. -/
def get_claude_agent_response_traced (sink : TraceSink)
    (errorSpan : Except String Unit) (message : String)
    (session_id : Option String) (freshUuid : String)
    (exchange : Except String (List SdkMessage)) : Except PyError AgentResult :=
  let is_new_session := session_id.isNone
  let actual_session_id := pyOrStr session_id freshUuid
  let _ := message
  match tracedBody sink exchange with
  | .ok text =>
    .ok { session_id := actual_session_id, content := text,
          is_new_session := is_new_session }
  | .error e =>
    match errorSpan, sink.flush with
    | _, .error f => .error (.tracing f)
    | _, .ok _ => .error e

/-! ## The HTTP layer (api.py)

`sessions` and `sdk_session_map` are module-level dicts, modelled as an
`AppState`.  Each endpoint is a function from its inputs and the state to
the successor state and an `Except`-valued HTTP response. -/

/-- A `{role, content}` history entry. -/
structure Message where
  role : String
  content : String
deriving DecidableEq, Repr

/-- The two module-level dicts of api.py. -/
structure AppState where
  sessions : List (String × List Message)
  sdk_session_map : List (String × String)
deriving DecidableEq, Repr

/-- Body of `POST /chat`. -/
structure ChatRequest where
  message : String
  session_id : Option String
deriving DecidableEq, Repr

/-- 200 response of `POST /chat`. -/
structure ChatResponse where
  session_id : String
  content : String
  timestamp : String
  is_new_session : Bool
deriving DecidableEq, Repr

/-- A raised `HTTPException`. -/
structure HTTPException where
  status_code : Nat
  detail : String
deriving DecidableEq, Repr

/-- 200 response of `GET /sessions/{id}`. -/
structure SessionResponse where
  session_id : String
  sdk_session_id : Option String
  conversation_history : List Message
  message_count : Nat
deriving DecidableEq, Repr

/-- 200 response of `DELETE /sessions/{id}`. -/
structure DeleteResponse where
  message : String
  note : String
deriving DecidableEq, Repr

/-- Per-conversation summary of `GET /sessions`. -/
structure SessionSummary where
  api_session_id : String
  sdk_session_id : Option String
  message_count : Nat
  last_message : Option Message
deriving DecidableEq, Repr

/-- 200 response of `GET /sessions`. -/
structure SessionsListing where
  total_sessions : Nat
  sessions : List SessionSummary
deriving DecidableEq, Repr

/-- Python `f"{x}"` of an optional string (`None` renders as `"None"`). -/
def pyStrOfOpt (o : Option String) : String :=
  match o with
  | none => "None"
  | some s => s

/-- The chat handler up to its first `await` (api.py lines 148-160):
compute `api_session_id = request.session_id or str(uuid.uuid4())`, create
the conversation if absent, append the user message.  Runs atomically on
the event loop. -/
def chatPhase1 (req : ChatRequest) (apiUuid : String) (st : AppState) : AppState :=
  let api_session_id := pyOrStr req.session_id apiUuid
  let sessions1 :=
    if (dictGet st.sessions api_session_id).isNone
    then dictSet st.sessions api_session_id []
    else st.sessions
  let sessions2 := dictAppend sessions1 api_session_id
    { role := "user", content := req.message }
  { st with sessions := sessions2 }

/-- The chat handler after the adapter returns (api.py lines 171-177):
record the sdk session mapping and append the assistant message.  Runs
atomically on the event loop. -/
def chatPhase3 (api_session_id : String) (result : AgentResult) (st : AppState) :
    AppState :=
  { sessions := dictAppend st.sessions api_session_id
      { role := "assistant", content := result.content },
    sdk_session_map := dictSet st.sdk_session_map api_session_id result.session_id }

/-- The `POST /chat` handler (api.py lines 137-187).  `apiUuid` and
`sdkUuid` are the values of the two `str(uuid.uuid4())` calls (api.py line
151 and adapter line 185); `exchange` is the runtime's streamed message
sequence or its exception; `timestamp` is `datetime.now(timezone.utc)`. -/
def chat (req : ChatRequest) (apiUuid sdkUuid : String)
    (exchange : Except String (List SdkMessage)) (timestamp : String)
    (st : AppState) : AppState × Except HTTPException ChatResponse :=
  let sdk_session_id := req.session_id
  let api_session_id := pyOrStr req.session_id apiUuid
  let st1 := chatPhase1 req apiUuid st
  match get_claude_agent_response req.message sdk_session_id sdkUuid exchange with
  | .error e =>
    (st1, .error { status_code := 500, detail := "Error processing request: " ++ e })
  | .ok result =>
    let st2 := chatPhase3 api_session_id result st1
    (st2, .ok { session_id := result.session_id, content := result.content,
                timestamp := timestamp, is_new_session := result.is_new_session })

/-- The `GET /sessions/{id}` handler (api.py lines 190-209). -/
def get_session (session_id : String) (st : AppState) :
    Except HTTPException SessionResponse :=
  match dictGet st.sessions session_id with
  | none =>
    .error { status_code := 404, detail := "Session " ++ session_id ++ " not found" }
  | some conversation =>
    .ok { session_id := session_id,
          sdk_session_id := dictGet st.sdk_session_map session_id,
          conversation_history := conversation,
          message_count := conversation.length }

/-- The `DELETE /sessions/{id}` handler (api.py lines 212-231). -/
def delete_session (session_id : String) (st : AppState) :
    AppState × Except HTTPException DeleteResponse :=
  if (dictGet st.sessions session_id).isNone then
    (st, .error { status_code := 404, detail := "Session " ++ session_id ++ " not found" })
  else
    let sdk_session := dictGet st.sdk_session_map session_id
    let sessions1 := dictDel st.sessions session_id
    let map1 :=
      if (dictGet st.sdk_session_map session_id).isSome
      then dictDel st.sdk_session_map session_id
      else st.sdk_session_map
    ({ sessions := sessions1, sdk_session_map := map1 },
     .ok { message := "API session " ++ session_id ++ " deleted successfully",
           note := "SDK session " ++ pyStrOfOpt sdk_session ++ " can still be resumed" })

/-- The `GET /sessions` handler (api.py lines 234-252). -/
def list_sessions (st : AppState) : SessionsListing :=
  { total_sessions := st.sessions.length,
    sessions := st.sessions.map (fun p =>
      { api_session_id := p.1,
        sdk_session_id := dictGet st.sdk_session_map p.1,
        message_count := p.2.length,
        last_message := p.2.getLast? }) }

/-! ## Specification-side description of the response text

The claim describes the response as the concatenation, in arrival order, of
the text of every `TextBlock` of every `AssistantMessage`; this is stated
independently of the accumulator loop and then proved equal to it. -/

/-- Plain concatenation of a list of strings. -/
def strConcat : List String → String
  | [] => ""
  | s :: rest => s ++ strConcat rest

/-- The text fragments a single streamed message contributes according to
the claim: the texts of the `TextBlock`s of an `AssistantMessage`, nothing
from any other message kind. -/
def assistantTextFragments (msg : SdkMessage) : List String :=
  match msg with
  | .assistantMessage blocks =>
    blocks.filterMap (fun b =>
      match b with
      | .textBlock t => some t
      | _ => none)
  | _ => []

/-- The claim's description of the response text. -/
def concatAssistantText (msgs : List SdkMessage) : String :=
  strConcat ((msgs.map assistantTextFragments).flatten)

/-! ## Interleaved execution of concurrent chat requests

The handlers are `async def`s on a single event loop, so each runs
atomically between `await` points.  A chat request consists of three units:
the pre-dispatch block (`chatPhase1`), the awaited adapter exchange (which
does not touch the registry), and the post-dispatch block (`chatPhase3`).
A schedule is an arbitrary interleaving of these units across `N` requests,
all carrying the same (previously unknown) `session_id` and each given an
exchange that succeeds. -/

/-- One atomic unit of request `i`, selected by its program counter:
`0` runs the pre-dispatch block, `1` is the awaited exchange (no registry
effect), `2` runs the post-dispatch block, anything later is a finished
request (no effect). -/
def chatStep {N : Nat} (sid : String) (userMsg asstText : Fin N → String)
    (i : Fin N) (phase : Nat) (st : AppState) : AppState :=
  if phase = 0 then
    chatPhase1 { message := userMsg i, session_id := some sid } "" st
  else if phase = 2 then
    chatPhase3 sid
      { session_id := sid, content := asstText i, is_new_session := false } st
  else st

/-- Run a schedule: at each scheduled index, execute that request's next
unit and advance its program counter. -/
def runSched {N : Nat} (sid : String) (userMsg asstText : Fin N → String) :
    List (Fin N) → (Fin N → Nat) → AppState → (Fin N → Nat) × AppState
  | [], pcs, st => (pcs, st)
  | i :: rest, pcs, st =>
    runSched sid userMsg asstText rest
      (fun j => if j = i then pcs j + 1 else pcs j)
      (chatStep sid userMsg asstText i (pcs i) st)

/-- Keys of a Python dict are unique; states built by the handlers satisfy
this for both module-level dicts. -/
def keysNodup {α : Type} (d : List (String × α)) : Prop :=
  (d.map Prod.fst).Nodup

instance {α : Type} (d : List (String × α)) : Decidable (keysNodup d) :=
  inferInstanceAs (Decidable (d.map Prod.fst).Nodup)

/-- Contribution of request `i` to the conversation's history, as a function
of its program counter: its user entry once the pre-dispatch block has run
(counter at least 1), its assistant entry once the post-dispatch block has
run (counter at least 3). -/
def contribAt {N : Nat} (userMsg asstText : Fin N → String) (pcs : Fin N → Nat)
    (i : Fin N) : Multiset Message :=
  (if 1 ≤ pcs i then {({ role := "user", content := userMsg i } : Message)} else 0) +
  (if 3 ≤ pcs i then {({ role := "assistant", content := asstText i } : Message)} else 0)

/-- Combined contribution of all `N` requests. -/
def contrib {N : Nat} (userMsg asstText : Fin N → String) (pcs : Fin N → Nat) :
    Multiset Message :=
  ∑ i : Fin N, contribAt userMsg asstText pcs i

/-- Execution invariant: either no step has run yet (the conversation does
not exist and every program counter is 0), or the conversation's history is
exactly the combined contribution. -/
def histInv {N : Nat} (sid : String) (userMsg asstText : Fin N → String)
    (pcs : Fin N → Nat) (st : AppState) : Prop :=
  (dictGet st.sessions sid = none ∧ ∀ i, pcs i = 0) ∨
  (∃ h, dictGet st.sessions sid = some h ∧
    (h : Multiset Message) = contrib userMsg asstText pcs)

/-- What one step of request `i` adds to the history. -/
def stepDelta {N : Nat} (userMsg asstText : Fin N → String) (p : Nat) (i : Fin N) :
    Multiset Message :=
  if p = 0 then {({ role := "user", content := userMsg i } : Message)}
  else if p = 2 then {({ role := "assistant", content := asstText i } : Message)}
  else 0

/-! ## Basic lemmas about the dict model -/

theorem dictGet_dictSet_self {α : Type} (d : List (String × α)) (k : String) (v : α) :
    dictGet (dictSet d k v) k = some v := by
  induction d with
  | nil => simp [dictSet, dictGet]
  | cons p rest ih =>
    obtain ⟨k', v'⟩ := p
    by_cases h : k' = k
    · simp [dictSet, dictGet, h]
    · simp [dictSet, dictGet, h, ih]

theorem dictGet_dictAppend_self {α : Type} (d : List (String × List α)) (k : String) (m : α) :
    dictGet (dictAppend d k m) k = (dictGet d k).map (fun l => l ++ [m]) := by
  induction d with
  | nil => simp [dictAppend, dictGet]
  | cons p rest ih =>
    obtain ⟨k', v'⟩ := p
    by_cases h : k' = k
    · simp [dictAppend, dictGet, h]
    · simp [dictAppend, dictGet, h, ih]

theorem dictGet_eq_none_of_not_mem {α : Type} (d : List (String × α)) (k : String)
    (h : k ∉ d.map Prod.fst) : dictGet d k = none := by
  induction d with
  | nil => rfl
  | cons p rest ih =>
    obtain ⟨k', v'⟩ := p
    rw [List.map_cons] at h
    have h1 : k' ≠ k := fun hk => h (by simp [hk])
    have h2 : k ∉ rest.map Prod.fst := fun hk => h (List.mem_cons_of_mem _ hk)
    simp [dictGet, h1, ih h2]

theorem dictGet_dictDel_self {α : Type} (d : List (String × α)) (k : String)
    (hnd : keysNodup d) : dictGet (dictDel d k) k = none := by
  induction d with
  | nil => rfl
  | cons p rest ih =>
    obtain ⟨k', v'⟩ := p
    obtain ⟨hhead, htail⟩ := List.nodup_cons.mp hnd
    by_cases h : k' = k
    · subst h
      simp [dictDel]
      exact dictGet_eq_none_of_not_mem rest k' hhead
    · simp [dictDel, dictGet, h]
      exact ih htail

theorem not_mem_keys_dictDel {α : Type} (d : List (String × α)) (k : String)
    (hnd : keysNodup d) : k ∉ (dictDel d k).map Prod.fst := by
  induction d with
  | nil => simp [dictDel]
  | cons p rest ih =>
    obtain ⟨k', v'⟩ := p
    obtain ⟨hhead, htail⟩ := List.nodup_cons.mp hnd
    by_cases h : k' = k
    · subst h
      simpa [dictDel] using hhead
    · intro hmem
      rw [show dictDel ((k', v') :: rest) k = (k', v') :: dictDel rest k by
            simp [dictDel, h],
          List.map_cons] at hmem
      rcases List.mem_cons.mp hmem with hk | hk
      · exact h hk.symm
      · exact ih htail hk

/-! ## Unfolding lemmas for the adapter and the chat handler -/

theorem gcar_ok (message : String) (sid : Option String) (uuid : String)
    (msgs : List SdkMessage) :
    get_claude_agent_response message sid uuid (.ok msgs) =
      .ok { session_id := pyOrStr sid uuid, content := response_text msgs,
            is_new_session := sid.isNone } := rfl

theorem gcar_err (message : String) (sid : Option String) (uuid : String)
    (e : String) :
    get_claude_agent_response message sid uuid (.error e) = .error e := rfl

theorem chat_err (req : ChatRequest) (u1 u2 : String) (e : String)
    (ts : String) (st : AppState) :
    chat req u1 u2 (.error e) ts st =
      (chatPhase1 req u1 st,
       .error { status_code := 500, detail := "Error processing request: " ++ e }) := rfl

theorem chat_ok (req : ChatRequest) (u1 u2 : String) (msgs : List SdkMessage)
    (ts : String) (st : AppState) :
    chat req u1 u2 (.ok msgs) ts st =
      (chatPhase3 (pyOrStr req.session_id u1)
         { session_id := pyOrStr req.session_id u2, content := response_text msgs,
           is_new_session := req.session_id.isNone }
         (chatPhase1 req u1 st),
       .ok { session_id := pyOrStr req.session_id u2, content := response_text msgs,
             timestamp := ts, is_new_session := req.session_id.isNone }) := rfl

/-- A chat request that carries a non-empty `session_id` decomposes into the
two atomic registry updates of the scheduler model, with the conversation id
equal to the supplied one. -/
theorem chat_eq_phases (m sid : String) (u1 u2 : String) (msgs : List SdkMessage)
    (ts : String) (st : AppState) (h : sid ≠ "") :
    chat { message := m, session_id := some sid } u1 u2 (.ok msgs) ts st =
      (chatPhase3 sid
         { session_id := sid, content := response_text msgs, is_new_session := false }
         (chatPhase1 { message := m, session_id := some sid } u1 st),
       .ok { session_id := sid, content := response_text msgs, timestamp := ts,
             is_new_session := false }) := by
  rw [chat_ok]
  simp [pyOrStr, h]

/-- Effect of the pre-dispatch block on the tracked conversation: its history
gains exactly the user entry (created empty first when absent). -/
theorem chatPhase1_history (req : ChatRequest) (u1 : String) (st : AppState) :
    dictGet (chatPhase1 req u1 st).sessions (pyOrStr req.session_id u1) =
      some ((dictGet st.sessions (pyOrStr req.session_id u1)).getD [] ++
        [{ role := "user", content := req.message }]) := by
  unfold chatPhase1
  cases hg : dictGet st.sessions (pyOrStr req.session_id u1) with
  | none => simp [hg, dictGet_dictAppend_self, dictGet_dictSet_self]
  | some conv => simp [hg, dictGet_dictAppend_self]

/-! ## The accumulator loop computes the claim's concatenation -/

theorem strConcat_append (a b : List String) :
    strConcat (a ++ b) = strConcat a ++ strConcat b := by
  induction a with
  | nil => simp [strConcat, String.empty_append]
  | cons s rest ih => simp [strConcat, ih, String.append_assoc]

theorem blocks_foldl_eq (blocks : List ContentBlock) (acc : String) :
    blocks.foldl blockText acc =
      acc ++ strConcat (blocks.filterMap (fun b =>
        match b with
        | .textBlock t => some t
        | _ => none)) := by
  induction blocks generalizing acc with
  | nil => simp [strConcat, String.append_empty]
  | cons b rest ih =>
    cases b with
    | textBlock t =>
      simp [List.foldl_cons, blockText, ih, strConcat, String.append_assoc]
    | toolUseBlock id name => simp [List.foldl_cons, blockText, ih]
    | toolResultBlock id c e => simp [List.foldl_cons, blockText, ih]

theorem response_text_eq (msgs : List SdkMessage) :
    response_text msgs = concatAssistantText msgs := by
  suffices hgen : ∀ acc : String,
      msgs.foldl
        (fun acc msg =>
          match msg with
          | .assistantMessage blocks => blocks.foldl blockText acc
          | _ => acc)
        acc = acc ++ concatAssistantText msgs by
    have := hgen ""
    simpa [response_text, String.empty_append] using this
  induction msgs with
  | nil => intro acc; simp [concatAssistantText, strConcat, String.append_empty]
  | cons m rest ih =>
    intro acc
    rw [List.foldl_cons, ih]
    cases m with
    | assistantMessage blocks =>
      simp [blocks_foldl_eq, concatAssistantText, assistantTextFragments,
        strConcat_append, String.append_assoc]
    | userMessage blocks =>
      simp [concatAssistantText, assistantTextFragments, strConcat_append, strConcat,
        String.empty_append]
    | resultMessage sid err =>
      simp [concatAssistantText, assistantTextFragments, strConcat_append, strConcat,
        String.empty_append]
    | otherMessage =>
      simp [concatAssistantText, assistantTextFragments, strConcat_append, strConcat,
        String.empty_append]

/-! ## Claim theorems -/

/-- C1.  The claim says the session id returned by `get_claude_agent_response`
is the one carried by the terminal result message of the runtime stream.  The
code never reads `ResultMessage.session_id`: with no `session_id` argument it
returns the adapter-generated uuid (`session_id or str(uuid.uuid4())`, line
185).  Here the stream's terminal result message carries `sdk-123`, the local
uuid is `u1`, and the adapter returns `u1`. -/
theorem C1_returned_id_not_from_result_message :
    get_claude_agent_response "What is the assignment ID for nwaters?" none "u1"
        (.ok [.assistantMessage [.textBlock "15778303"],
              .resultMessage "sdk-123" false]) =
      .ok { session_id := "u1", content := "15778303", is_new_session := true } ∧
    "u1" ≠ "sdk-123" := by
  exact ⟨rfl, by decide⟩

/-- C2.  The claim says a follow-up `POST /chat` carrying the returned
session id reuses the same stored conversation, growing its history by two.
In the code the first request (no session id) stores history under the api
uuid `A` (api.py line 151) but returns the adapter uuid `B` (adapter line
185): the follow-up with `B` creates a fresh conversation `B`, while `A`
stays at two entries. -/
theorem C2_followup_creates_new_conversation :
    let str : List SdkMessage :=
      [.assistantMessage [.textBlock "15778303"], .resultMessage "sdk-1" false]
    let r1 := chat { message := "m1", session_id := none } "A" "B" (.ok str) "t1"
      { sessions := [], sdk_session_map := [] }
    let r2 := chat { message := "m2", session_id := some "B" } "A2" "B2" (.ok str)
      "t2" r1.1
    r1.2 = .ok { session_id := "B", content := "15778303", timestamp := "t1",
                 is_new_session := true } ∧
    dictGet r1.1.sessions "A" =
      some [{ role := "user", content := "m1" },
            { role := "assistant", content := "15778303" }] ∧
    dictGet r1.1.sessions "B" = none ∧
    dictGet r2.1.sessions "A" =
      some [{ role := "user", content := "m1" },
            { role := "assistant", content := "15778303" }] ∧
    dictGet r2.1.sessions "B" =
      some [{ role := "user", content := "m2" },
            { role := "assistant", content := "15778303" }] := by
  exact ⟨rfl, rfl, rfl, rfl, rfl⟩

/-- C3.  Timeoff lookup: when both dates pass `validate_datetime`
(`strptime(_, "%Y-%m-%d")`, so real calendar dates), the result carries no
error flag and its text is exactly the `json.dumps` serialization of the
fixed list selected by `assignment_id` alone; when `start_date` fails, the
error-flagged text names it and the pattern (checked before `end_date`);
when only `end_date` fails, the error-flagged text names `end_date`. -/
theorem C3_timeoff_lookup (args : TimeoffArgs) :
    (validate_datetime (args.start_date.getD "") = true →
      validate_datetime (args.end_date.getD "") = true →
      get_timeoff_schedule_hr_usecase args =
        { content := [{ type := "text", text :=
            if args.assignment_id.getD "" = "15338303" then
              json_dumps ["20250411", "20250311", "20250101"]
            else if args.assignment_id.getD "" = "15778303" then
              json_dumps ["20250105"]
            else json_dumps [] }],
          is_error := false }) ∧
    (validate_datetime (args.start_date.getD "") = false →
      get_timeoff_schedule_hr_usecase args =
        { content := [{ type := "text", text := "Incorrect date format " ++
            args.start_date.getD "" ++ ", should be YYYY-MM-DD" }],
          is_error := true }) ∧
    (validate_datetime (args.start_date.getD "") = true →
      validate_datetime (args.end_date.getD "") = false →
      get_timeoff_schedule_hr_usecase args =
        { content := [{ type := "text", text := "Incorrect date format " ++
            args.end_date.getD "" ++ ", should be YYYY-MM-DD" }],
          is_error := true }) := by
  refine ⟨?_, ?_, ?_⟩
  · intro h1 h2
    simp [get_timeoff_schedule_hr_usecase, h1, h2]
  · intro h1
    simp [get_timeoff_schedule_hr_usecase, h1]
  · intro h1 h2
    simp [get_timeoff_schedule_hr_usecase, h1, h2]

/-- Witness for C3: the valid-dates branch on the id `15338303` (with a leap
day as `start_date`) and the invalid-`end_date` branch on `2025-13-01`. -/
theorem C3_timeoff_lookup_witness :
    (validate_datetime "2024-02-29" = true ∧ validate_datetime "2025-12-31" = true ∧
      get_timeoff_schedule_hr_usecase
          { assignment_id := some "15338303", start_date := some "2024-02-29",
            end_date := some "2025-12-31" } =
        ⟨[⟨"text", "[\"20250411\", \"20250311\", \"20250101\"]"⟩], false⟩) ∧
    (validate_datetime "2025-13-01" = false ∧
      get_timeoff_schedule_hr_usecase
          { assignment_id := some "15338303", start_date := some "2024-02-29",
            end_date := some "2025-13-01" } =
        ⟨[⟨"text", "Incorrect date format 2025-13-01, should be YYYY-MM-DD"⟩], true⟩) := by
  refine ⟨⟨by decide, by decide, ?_⟩, ⟨by decide, ?_⟩⟩
  · exact (C3_timeoff_lookup
      { assignment_id := some "15338303", start_date := some "2024-02-29",
        end_date := some "2025-12-31" }).1 (by decide) (by decide)
  · exact ((C3_timeoff_lookup
      { assignment_id := some "15338303", start_date := some "2024-02-29",
        end_date := some "2025-13-01" }).2.2) (by decide) (by decide)

/-- C4.  The assignment-id lookup returns `15778303` for `nwaters`,
`15338303` for `johndoe`, and the literal `not found` for every other
username, including a missing argument; the result never carries an error
flag. -/
theorem C4_assignment_lookup (args : UsernameArgs) :
    (get_assignment_id_hr_usecase args).is_error = false ∧
    (get_assignment_id_hr_usecase args).content =
      [{ type := "text", text :=
          if args.username = some "nwaters" then "15778303"
          else if args.username = some "johndoe" then "15338303"
          else "not found" }] := by
  obtain ⟨u⟩ := args
  refine ⟨rfl, ?_⟩
  cases u with
  | none => rfl
  | some s =>
    by_cases h1 : s = "nwaters"
    · simp [get_assignment_id_hr_usecase, h1]
    · by_cases h2 : s = "johndoe"
      · simp [get_assignment_id_hr_usecase, h1, h2]
      · simp [get_assignment_id_hr_usecase, h1, h2]

/-- When the traced try-body succeeds, the exchange succeeded and the yield
is the accumulated response text of its stream. -/
theorem tracedBody_ok_inv (sink : TraceSink)
    (exchange : Except String (List SdkMessage)) (text : String)
    (h : tracedBody sink exchange = .ok text) :
    ∃ msgs, exchange = .ok msgs ∧ text = response_text msgs := by
  unfold tracedBody at h
  split at h
  · exact absurd h (by simp)
  · split at h
    · exact absurd h (by simp)
    · rename_i msgs
      split at h
      · exact absurd h (by simp)
      · split at h
        · exact absurd h (by simp)
        · split at h
          · exact absurd h (by simp)
          · injection h with h'
            exact ⟨msgs, rfl, h'.symm⟩

/-- C5.  The response text equals the concatenation, in arrival order, of
the text of every `TextBlock` inside every `AssistantMessage` of the stream;
no other message or block kind contributes.  Stated for the accumulation
loop itself and for the value returned by both paths of
`get_claude_agent_response`. -/
theorem C5_response_is_assistant_text_concat :
    (∀ msgs : List SdkMessage, response_text msgs = concatAssistantText msgs) ∧
    (∀ (message : String) (sid : Option String) (uuid : String)
        (msgs : List SdkMessage) (r : AgentResult),
      get_claude_agent_response message sid uuid (.ok msgs) = .ok r →
      r.content = concatAssistantText msgs) ∧
    (∀ (sink : TraceSink) (es : Except String Unit) (message : String)
        (sid : Option String) (uuid : String) (msgs : List SdkMessage)
        (r : AgentResult),
      get_claude_agent_response_traced sink es message sid uuid (.ok msgs) = .ok r →
      r.content = concatAssistantText msgs) := by
  refine ⟨response_text_eq, ?_, ?_⟩
  · intro message sid uuid msgs r h
    rw [gcar_ok] at h
    injection h with h2
    rw [← h2]
    exact response_text_eq msgs
  · intro sink es message sid uuid msgs r h
    unfold get_claude_agent_response_traced at h
    cases htb : tracedBody sink (.ok msgs) with
    | ok text =>
      rw [htb] at h
      injection h with h2
      obtain ⟨msgs2, hmsgs, htext⟩ := tracedBody_ok_inv sink (.ok msgs) text htb
      injection hmsgs with hmsgs'
      rw [← h2, htext, ← hmsgs']
      exact response_text_eq msgs
    | error e =>
      rw [htb] at h
      cases es <;> cases hf : sink.flush <;> rw [hf] at h <;> exact absurd h (by simp)

/-- Witness for C5: a two-message stream whose assistant fragments
concatenate to `hello`. -/
theorem C5_response_is_assistant_text_concat_witness :
    ({ session_id := "u", content := "hello", is_new_session := true } :
        AgentResult).content =
      concatAssistantText
        [.assistantMessage [.textBlock "hel", .toolUseBlock "t1" "get_assignment_id"],
         .userMessage [.toolResultBlock "t1" (some "15778303") none],
         .assistantMessage [.textBlock "lo"],
         .resultMessage "sdk-1" false] := by
  exact C5_response_is_assistant_text_concat.2.1 "q" none "u" _ _ rfl

/-- C6.  `is_new_session` is true iff the `session_id` argument was `None`,
on both adapter paths and independently of the stream or sink, and the chat
endpoint propagates the flag unchanged. -/
theorem C6_is_new_session_iff_no_session_arg :
    (∀ (message : String) (sid : Option String) (uuid : String)
        (exchange : Except String (List SdkMessage)) (r : AgentResult),
      get_claude_agent_response message sid uuid exchange = .ok r →
      r.is_new_session = sid.isNone) ∧
    (∀ (sink : TraceSink) (es : Except String Unit) (message : String)
        (sid : Option String) (uuid : String)
        (exchange : Except String (List SdkMessage)) (r : AgentResult),
      get_claude_agent_response_traced sink es message sid uuid exchange = .ok r →
      r.is_new_session = sid.isNone) ∧
    (∀ (req : ChatRequest) (u1 u2 : String)
        (exchange : Except String (List SdkMessage)) (ts : String)
        (st st' : AppState) (resp : ChatResponse),
      chat req u1 u2 exchange ts st = (st', .ok resp) →
      resp.is_new_session = req.session_id.isNone) := by
  refine ⟨?_, ?_, ?_⟩
  · intro message sid uuid exchange r h
    cases exchange with
    | error e => rw [gcar_err] at h; exact absurd h (by simp)
    | ok msgs =>
      rw [gcar_ok] at h
      injection h with h2
      rw [← h2]
  · intro sink es message sid uuid exchange r h
    unfold get_claude_agent_response_traced at h
    cases htb : tracedBody sink exchange with
    | ok text =>
      rw [htb] at h
      injection h with h2
      rw [← h2]
    | error e =>
      rw [htb] at h
      cases es <;> cases hf : sink.flush <;> rw [hf] at h <;> exact absurd h (by simp)
  · intro req u1 u2 exchange ts st st' resp h
    cases exchange with
    | error e =>
      rw [chat_err] at h
      have h2 := congrArg Prod.snd h
      exact absurd h2 (by simp)
    | ok msgs =>
      rw [chat_ok] at h
      have h2 := congrArg Prod.snd h
      simp only [Prod.snd] at h2
      injection h2 with h3
      rw [← h3]

/-- Witness for C6: a resumed exchange carries `is_new_session = false`
through the chat endpoint. -/
theorem C6_is_new_session_iff_no_session_arg_witness :
    ({ session_id := "s", content := "", timestamp := "t",
       is_new_session := false } : ChatResponse).is_new_session =
      (some "s" : Option String).isNone := by
  exact C6_is_new_session_iff_no_session_arg.2.2
    { message := "m", session_id := some "s" } "A" "B" (.ok []) "t"
    { sessions := [], sdk_session_map := [] } _ _ rfl

/-- C8.  When the adapter raises, the chat endpoint responds 500 with the
failure description in the detail, the conversation's history holds exactly
the pre-dispatch user entry on top of its previous content, and the
runtime-session mapping is unchanged. -/
theorem C8_chat_error_path (req : ChatRequest) (u1 u2 : String) (e : String)
    (ts : String) (st : AppState) :
    (chat req u1 u2 (.error e) ts st).2 =
      .error { status_code := 500, detail := "Error processing request: " ++ e } ∧
    dictGet (chat req u1 u2 (.error e) ts st).1.sessions
        (pyOrStr req.session_id u1) =
      some ((dictGet st.sessions (pyOrStr req.session_id u1)).getD [] ++
        [{ role := "user", content := req.message }]) ∧
    (chat req u1 u2 (.error e) ts st).1.sdk_session_map = st.sdk_session_map := by
  rw [chat_err]
  exact ⟨rfl, chatPhase1_history req u1 st, rfl⟩

/-- C9 counterexample.  The claim says a tracing-sink failure is always
swallowed and the traced call never raises a sink-originated exception.  In
the code only the error-span recording inside the `except` handler is
guarded by `try/except: pass`; a failure in any other span — here the
`user-message` span — escapes the `try` body, is caught by the outer
`except` and re-raised, so the traced call raises the sink's exception even
though the exchange itself would have succeeded (the untraced path returns
normally on the same input). -/
theorem C9_tracing_failure_propagates_counterexample :
    let sink : TraceSink :=
      { span := fun n => if n = "user-message" then .error "span backend failure"
          else .ok (),
        rootUpdate := .ok (), flush := .ok () }
    let stream : List SdkMessage :=
      [.assistantMessage [.textBlock "hello"], .resultMessage "sdk-1" false]
    get_claude_agent_response_traced sink (.ok ()) "q" none "u1" (.ok stream) =
      .error (.tracing "span backend failure") ∧
    get_claude_agent_response "q" none "u1" (.ok stream) =
      .ok { session_id := "u1", content := "hello", is_new_session := true } := by
  exact ⟨rfl, rfl⟩

/-- C9 amended.  Only the error-span recording inside the exception handler
is swallowed: its outcome never changes what the traced call returns or
raises; and when the exception-path flush succeeds, the pending exception of
the try body (tracing- or exchange-originated) is re-raised unchanged.
Failures of any other span, or of the flush, propagate (see the
counterexample). -/
theorem C9_only_error_span_swallowed :
    (∀ (sink : TraceSink) (es1 es2 : Except String Unit) (message : String)
        (sid : Option String) (uuid : String)
        (exchange : Except String (List SdkMessage)),
      get_claude_agent_response_traced sink es1 message sid uuid exchange =
        get_claude_agent_response_traced sink es2 message sid uuid exchange) ∧
    (∀ (sink : TraceSink) (es : Except String Unit) (message : String)
        (sid : Option String) (uuid : String)
        (exchange : Except String (List SdkMessage)) (e : PyError),
      sink.flush = .ok () →
      tracedBody sink exchange = .error e →
      get_claude_agent_response_traced sink es message sid uuid exchange =
        .error e) := by
  constructor
  · intro sink es1 es2 message sid uuid exchange
    unfold get_claude_agent_response_traced
    cases tracedBody sink exchange with
    | ok text => rfl
    | error e => cases es1 <;> cases es2 <;> cases hf : sink.flush <;> simp [hf]
  · intro sink es message sid uuid exchange e hf htb
    unfold get_claude_agent_response_traced
    rw [htb]
    cases es <;> simp [hf]

/-- Witness for C9: with a failing exchange, a healthy flush and an error
span whose own recording fails, the exchange error is re-raised unchanged. -/
theorem C9_only_error_span_swallowed_witness :
    get_claude_agent_response_traced
        { span := fun _ => .ok (), rootUpdate := .ok (), flush := .ok () }
        (.error "error span failed") "q" none "u1" (.error "exchange boom") =
      .error (.exchange "exchange boom") := by
  exact C9_only_error_span_swallowed.2
    { span := fun _ => .ok (), rootUpdate := .ok (), flush := .ok () }
    (.error "error span failed") "q" none "u1" (.error "exchange boom")
    (.exchange "exchange boom") rfl rfl

/-- C7.  `DELETE /sessions/{id}` responds 404 (state unchanged) when `id` is
not a stored conversation; when it is stored, it removes both the history
and the runtime-session mapping and responds 200 with the confirmation
body, after which `GET /sessions/{id}` responds 404 and `id` no longer
appears among the entries of `GET /sessions`. -/
theorem C7_delete_session_spec (st : AppState) (sid : String)
    (hs : keysNodup st.sessions) (hm : keysNodup st.sdk_session_map) :
    (dictGet st.sessions sid = none →
      delete_session sid st =
        (st, .error { status_code := 404,
                      detail := "Session " ++ sid ++ " not found" })) ∧
    (∀ conv, dictGet st.sessions sid = some conv →
      (delete_session sid st).2 =
        .ok { message := "API session " ++ sid ++ " deleted successfully",
              note := "SDK session " ++
                pyStrOfOpt (dictGet st.sdk_session_map sid) ++
                " can still be resumed" } ∧
      get_session sid (delete_session sid st).1 =
        .error { status_code := 404,
                 detail := "Session " ++ sid ++ " not found" } ∧
      dictGet (delete_session sid st).1.sessions sid = none ∧
      dictGet (delete_session sid st).1.sdk_session_map sid = none ∧
      sid ∉ (list_sessions (delete_session sid st).1).sessions.map
        SessionSummary.api_session_id) := by
  constructor
  · intro hnone
    simp [delete_session, hnone]
  · intro conv hsome
    have hdel : (delete_session sid st).1 =
        { sessions := dictDel st.sessions sid,
          sdk_session_map :=
            if (dictGet st.sdk_session_map sid).isSome
            then dictDel st.sdk_session_map sid
            else st.sdk_session_map } := by
      simp [delete_session, hsome]
    have hresp : (delete_session sid st).2 =
        .ok { message := "API session " ++ sid ++ " deleted successfully",
              note := "SDK session " ++
                pyStrOfOpt (dictGet st.sdk_session_map sid) ++
                " can still be resumed" } := by
      simp [delete_session, hsome]
    have hgone : dictGet (dictDel st.sessions sid) sid = none :=
      dictGet_dictDel_self st.sessions sid hs
    have hmap : dictGet (delete_session sid st).1.sdk_session_map sid = none := by
      rw [hdel]
      cases hq : dictGet st.sdk_session_map sid with
      | none => simp [hq]
      | some v => simp [hq, dictGet_dictDel_self st.sdk_session_map sid hm]
    refine ⟨hresp, ?_, ?_, hmap, ?_⟩
    · rw [hdel]
      simp [get_session, hgone]
    · rw [hdel]
      exact hgone
    · rw [hdel]
      have hkeys : (list_sessions
          ({ sessions := dictDel st.sessions sid,
             sdk_session_map :=
               if (dictGet st.sdk_session_map sid).isSome
               then dictDel st.sdk_session_map sid
               else st.sdk_session_map } : AppState)).sessions.map
            SessionSummary.api_session_id =
          (dictDel st.sessions sid).map Prod.fst := by
        simp [list_sessions, List.map_map]
      rw [hkeys]
      exact not_mem_keys_dictDel st.sessions sid hs

/-- Witness for C7: deleting the only stored conversation makes its
retrieval fail with 404. -/
theorem C7_delete_session_spec_witness :
    keysNodup [("s1", [({ role := "user", content := "hi" } : Message)])] ∧
    get_session "s1"
        (delete_session "s1"
          { sessions := [("s1", [{ role := "user", content := "hi" }])],
            sdk_session_map := [("s1", "sdk-9")] }).1 =
      .error { status_code := 404, detail := "Session s1 not found" } := by
  refine ⟨by decide, ?_⟩
  exact ((C7_delete_session_spec
    { sessions := [("s1", [{ role := "user", content := "hi" }])],
      sdk_session_map := [("s1", "sdk-9")] } "s1"
    (by decide) (by decide)).2 [{ role := "user", content := "hi" }] rfl).2.1

/-! ## Accounting for the interleaved chat requests (claim C10) -/

theorem contribAt_update {N : Nat} (userMsg asstText : Fin N → String)
    (pcs : Fin N → Nat) (i : Fin N) :
    contribAt userMsg asstText (fun j => if j = i then pcs j + 1 else pcs j) i =
      contribAt userMsg asstText pcs i + stepDelta userMsg asstText (pcs i) i := by
  rcases hp : pcs i with _ | _ | _ | n <;> simp [contribAt, stepDelta, hp]

theorem contrib_update {N : Nat} (userMsg asstText : Fin N → String)
    (pcs : Fin N → Nat) (i : Fin N) :
    contrib userMsg asstText (fun j => if j = i then pcs j + 1 else pcs j) =
      contrib userMsg asstText pcs + stepDelta userMsg asstText (pcs i) i := by
  unfold contrib
  rw [← Finset.sum_erase_add _ _ (Finset.mem_univ i),
      ← Finset.sum_erase_add _ _ (Finset.mem_univ i), contribAt_update]
  have hrest : ∀ j ∈ Finset.univ.erase i,
      contribAt userMsg asstText (fun k => if k = i then pcs k + 1 else pcs k) j =
        contribAt userMsg asstText pcs j := by
    intro j hj
    have hne : j ≠ i := (Finset.mem_erase.mp hj).1
    simp [contribAt, hne]
  rw [Finset.sum_congr rfl hrest]
  abel

/-- One scheduled step preserves the invariant. -/
theorem histInv_step {N : Nat} (sid : String) (userMsg asstText : Fin N → String)
    (pcs : Fin N → Nat) (st : AppState) (i : Fin N) (hsid : sid ≠ "")
    (hinv : histInv sid userMsg asstText pcs st) :
    histInv sid userMsg asstText (fun j => if j = i then pcs j + 1 else pcs j)
      (chatStep sid userMsg asstText i (pcs i) st) := by
  have hapi : pyOrStr (some sid) "" = sid := by simp [pyOrStr, hsid]
  rcases hinv with ⟨hnone, hzero⟩ | ⟨h, hget, hmul⟩
  · -- no step has run yet; this step must be the pre-dispatch block
    have hp : pcs i = 0 := hzero i
    right
    refine ⟨[{ role := "user", content := userMsg i }], ?_, ?_⟩
    · simp [chatStep, hp, chatPhase1, hapi, hnone, dictGet_dictAppend_self,
        dictGet_dictSet_self]
    · rw [contrib_update]
      have hbase : contrib userMsg asstText pcs = 0 := by
        unfold contrib
        refine Finset.sum_eq_zero ?_
        intro j hj
        simp [contribAt, hzero j]
      rw [hbase, hp]
      simp [stepDelta]
  · right
    rcases hp : pcs i with _ | _ | _ | n
    · -- pre-dispatch block appends the user entry
      refine ⟨h ++ [{ role := "user", content := userMsg i }], ?_, ?_⟩
      · simp [chatStep, chatPhase1, hapi, hget, dictGet_dictAppend_self]
      · rw [contrib_update, hp, ← hmul]
        simp [stepDelta, ← Multiset.coe_singleton, ← Multiset.coe_add]
    · -- the awaited exchange does not touch the registry
      refine ⟨h, ?_, ?_⟩
      · simp [chatStep, hget]
      · rw [contrib_update, hp, ← hmul]
        simp [stepDelta]
    · -- post-dispatch block appends the assistant entry
      refine ⟨h ++ [{ role := "assistant", content := asstText i }], ?_, ?_⟩
      · simp [chatStep, chatPhase3, hget, dictGet_dictAppend_self]
      · rw [contrib_update, hp, ← hmul]
        simp [stepDelta, ← Multiset.coe_singleton, ← Multiset.coe_add]
    · -- finished request: no effect
      refine ⟨h, ?_, ?_⟩
      · simp [chatStep, hget, hp]
      · rw [contrib_update, hp, ← hmul]
        simp [stepDelta]

/-- The invariant holds along any schedule. -/
theorem runSched_inv {N : Nat} (sid : String) (userMsg asstText : Fin N → String)
    (sched : List (Fin N)) (hsid : sid ≠ "") :
    ∀ (pcs : Fin N → Nat) (st : AppState),
      histInv sid userMsg asstText pcs st →
      histInv sid userMsg asstText
        (runSched sid userMsg asstText sched pcs st).1
        (runSched sid userMsg asstText sched pcs st).2 := by
  induction sched with
  | nil => intro pcs st hinv; exact hinv
  | cons i rest ih =>
    intro pcs st hinv
    exact ih _ _ (histInv_step sid userMsg asstText pcs st i hsid hinv)

theorem multiset_ofFn {α : Type} : ∀ {n : Nat} (f : Fin n → α),
    (↑(List.ofFn f) : Multiset α) = ∑ i : Fin n, ({f i} : Multiset α) := by
  intro n
  induction n with
  | zero => intro f; simp
  | succ m ih =>
    intro f
    rw [List.ofFn_succ, Fin.sum_univ_succ, ← ih (fun i => f i.succ)]
    rw [← Multiset.cons_coe, ← Multiset.singleton_add]

/-- Once every request has completed, the combined contribution is all `N`
user entries plus all `N` assistant entries. -/
theorem contrib_complete {N : Nat} (userMsg asstText : Fin N → String)
    (pcs : Fin N → Nat) (hdone : ∀ i, 3 ≤ pcs i) :
    contrib userMsg asstText pcs =
      ↑(List.ofFn (fun i => ({ role := "user", content := userMsg i } : Message)) ++
        List.ofFn (fun i => ({ role := "assistant", content := asstText i } : Message))) := by
  have hsplit : contrib userMsg asstText pcs =
      (∑ i : Fin N, ({({ role := "user", content := userMsg i } : Message)} : Multiset Message)) +
      (∑ i : Fin N, ({({ role := "assistant", content := asstText i } : Message)} : Multiset Message)) := by
    unfold contrib
    rw [← Finset.sum_add_distrib]
    refine Finset.sum_congr rfl ?_
    intro i hi
    have h1 : 1 ≤ pcs i := le_trans (by omega) (hdone i)
    simp [contribAt, h1, hdone i]
  rw [hsplit, ← multiset_ofFn, ← multiset_ofFn]
  exact (Multiset.coe_add _ _).symm

/-- C10.  Under the event-loop interleaving model (each handler runs
atomically between `await` points, `chatStep`/`runSched`), any schedule that
completes `N` concurrent chat requests targeting the same previously unknown
conversation id leaves that conversation's history holding exactly the `N`
user entries and `N` assistant entries — a permutation of the `2N` appended
entries, none lost and none corrupted. -/
theorem C10_concurrent_chats_lose_no_messages {N : Nat} (sid : String)
    (userMsg asstText : Fin N → String) (sched : List (Fin N)) (st0 : AppState)
    (hN : 0 < N) (hsid : sid ≠ "")
    (hfresh : dictGet st0.sessions sid = none)
    (hdone : ∀ i, 3 ≤ (runSched sid userMsg asstText sched (fun _ => 0) st0).1 i) :
    ∃ h, dictGet (runSched sid userMsg asstText sched (fun _ => 0) st0).2.sessions
        sid = some h ∧
      h.Perm
        (List.ofFn (fun i => ({ role := "user", content := userMsg i } : Message)) ++
         List.ofFn (fun i => ({ role := "assistant", content := asstText i } : Message))) ∧
      h.length = 2 * N := by
  have hinv := runSched_inv sid userMsg asstText sched hsid (fun _ => 0) st0
    (Or.inl ⟨hfresh, fun i => rfl⟩)
  rcases hinv with ⟨hnone, hzero⟩ | ⟨h, hget, hmul⟩
  · exfalso
    have h0 := hzero ⟨0, hN⟩
    have h3 := hdone ⟨0, hN⟩
    omega
  · have hperm : h.Perm
        (List.ofFn (fun i => ({ role := "user", content := userMsg i } : Message)) ++
         List.ofFn (fun i => ({ role := "assistant", content := asstText i } : Message))) := by
      rw [← Multiset.coe_eq_coe, hmul]
      exact contrib_complete userMsg asstText _ hdone
    refine ⟨h, hget, hperm, ?_⟩
    rw [hperm.length_eq]
    simp [List.length_append, List.length_ofFn]
    omega

/-- Witness for C10: two fully interleaved requests on the fresh id `s`
leave a four-entry history holding both user entries and both assistant
entries. -/
theorem C10_concurrent_chats_lose_no_messages_witness :
    (0 : Nat) < 2 ∧ ("s" : String) ≠ "" ∧
    dictGet (AppState.mk [] []).sessions "s" = none ∧
    (∀ i : Fin 2, 3 ≤ (runSched "s" (fun _ => "hello") (fun _ => "reply")
        ([0, 1, 0, 1, 0, 1] : List (Fin 2)) (fun _ => 0) (AppState.mk [] [])).1 i) ∧
    (∃ h, dictGet (runSched "s" (fun _ => "hello") (fun _ => "reply")
          ([0, 1, 0, 1, 0, 1] : List (Fin 2)) (fun _ => 0)
          (AppState.mk [] [])).2.sessions "s" = some h ∧
      h.Perm
        (List.ofFn (fun _ : Fin 2 => ({ role := "user", content := "hello" } : Message)) ++
         List.ofFn (fun _ : Fin 2 => ({ role := "assistant", content := "reply" } : Message))) ∧
      h.length = 2 * 2) := by
  exact ⟨by decide, by decide, rfl, by decide,
    C10_concurrent_chats_lose_no_messages "s" (fun _ => "hello") (fun _ => "reply")
      ([0, 1, 0, 1, 0, 1] : List (Fin 2)) (AppState.mk [] [])
      (by decide) (by decide) rfl (by decide)⟩

end HRAgent
